import Mathlib

/-!
Shallow embedding of the Kafka-monitor consumer (consumer.go of
RedHatInsights/insights-kafka-monitor) together with proofs of the
specified properties.

Modelling conventions:
  * Go errors are strings (`GoError`); a fallible value is an `Option GoError`
    (none = nil error) or an `Except`.
  * Go runtime panics that the source guards against (calling a nil function,
    closing a closed channel) are modelled explicitly through `GoPanic` so the
    guards can be proved to work.
  * The two `uint64` counters are naturals reduced modulo `2 ^ 64` at every
    increment, mirroring Go unsigned overflow semantics.
  * Structured log output is modelled as a list of `LogEvent`s carrying the
    fields the source attaches to each log call; wall-clock data (durations,
    `time.Now()`) is not modelled, as no property depends on it.
  * The sarama library is external to the repository; its objects are
    modelled by the interface the source consumes: a claim is its message
    list plus initial offset, a session records the messages marked on it,
    and the result of the external `ConsumerGroup.Close()` call is a
    parameter of `Close`.
-/

/-- Go `error` values, abstracted to their message. -/
abbrev GoError : Type := String

/-- Go runtime panics relevant to this code: invoking a nil function value,
closing an already-closed channel, dereferencing a nil pointer. -/
inductive GoPanic where
  | nilFunctionCall
  | closeOfClosedChannel
  | nilPointerDereference
deriving DecidableEq, Repr

/-- One structured log record, tagged by which log call in consumer.go
emitted it, carrying the fields that call attaches. -/
inductive LogEvent where
  /-- Record of `log.Info` with addr and group in `NewWithSaramaConfig`. -/
  | configurationInfo (addr group : String)
  /-- Record of `log.Error().Msg("nil message")` in `HandleMessage`. -/
  | nilMessageError
  /-- Record of `log.Info ... Msg("Started processing message")` in `HandleMessage`. -/
  | startedProcessing (offset : Int) (partition : Int) (topic : String) (timestamp : Nat)
  /-- Record of `log.Info().Int("length", ...)` in `ProcessMessage`. -/
  | messageLength (length : Nat)
  /-- Record of `log.Info().Str("content", ...)` in `ProcessMessage` (verbose only). -/
  | messageValue (content : List Nat)
  /-- Record of `log.Error ... Msg("Error processing message consumed from Kafka")`. -/
  | errorProcessingMessage (e : GoError)
  /-- the `Msgf("Processing of message took ...")` summary in `HandleMessage`,
  with topic/group from the configuration, offset/partition/topic from the
  message and the cumulative counters after this message. -/
  | processingSummary (topic group : String) (offset : Int) (partition : Int)
      (msgTopic : String) (consumed errors : Nat)
  /-- Record of `log.Info ... Msg("Starting messages loop")` in `ConsumeClaim`. -/
  | startingMessagesLoop (initialOffset : Int)
  /-- Record of `log.Info().Msg("New session has been setup")` in `Setup`. -/
  | newSessionSetup
  /-- Record of `log.Info().Msg("New session has been finished")` in `Cleanup`. -/
  | sessionFinished
  /-- Record of `log.Fatal ... Msg("Unable to recreate Kafka session")` in `Serve`. -/
  | unableToRecreateSession (e : GoError)
  /-- Record of `log.Info ... Msg("Stopping consumer")` in `Serve`. -/
  | stoppingConsumer
  /-- Record of `log.Info().Msg("Created new kafka session")` in `Serve`. -/
  | createdNewSession
  /-- Record of `log.Error ... Msg("Unable to close consumer group")` in `Close`. -/
  | unableToCloseConsumerGroup (e : GoError)
deriving DecidableEq, Repr

/-- Broker configuration consumed by the consumer (config.go fields the
consumer reads; `Timeout` is a `time.Duration`, modelled in nanoseconds). -/
structure BrokerConfiguration where
  Address : String
  Topic : String
  Group : String
  Timeout : Nat
deriving DecidableEq, Repr

/-- The part of `sarama.Config` this code touches: the protocol version and
the three Net timeouts the commented-out block would have set. -/
structure SaramaConfig where
  Version : String
  NetDialTimeout : Nat
  NetReadTimeout : Nat
  NetWriteTimeout : Nat
deriving DecidableEq, Repr

/-- Defaults of `sarama.NewConfig()`: default values (30 s Net timeouts, no version). -/
def saramaNewConfig : SaramaConfig :=
  { Version := "", NetDialTimeout := 30, NetReadTimeout := 30, NetWriteTimeout := 30 }

/-- The protocol version constant `sarama.V0_10_2_0`. -/
def V0_10_2_0 : String := "0.10.2.0"

/-- The fields of `sarama.ConsumerMessage` the source reads; `Value` is the
payload byte slice. -/
structure ConsumerMessage where
  Offset : Int
  Partition : Int
  Topic : String
  Timestamp : Nat
  Value : List Nat
deriving DecidableEq, Repr

/-- A `sarama.ConsumerGroupSession` as consumed by this code: the sequence of
(message, metadata) pairs marked on it via `MarkMessage`. Messages travel as
pointers, hence `Option`. -/
structure ConsumerGroupSession where
  marked : List (Option ConsumerMessage × String)
deriving DecidableEq, Repr

/-- The call `session.MarkMessage(message, metadata)`. -/
def MarkMessage (s : ConsumerGroupSession) (m : Option ConsumerMessage)
    (metadata : String) : ConsumerGroupSession :=
  { marked := s.marked ++ [(m, metadata)] }

/-- A `sarama.ConsumerGroupClaim` as consumed by this code: its initial offset
and the (finite, per-generation) message sequence its channel yields. -/
structure ConsumerGroupClaim where
  initialOffset : Int
  messages : List (Option ConsumerMessage)
deriving DecidableEq, Repr

/-- State of a Go `chan bool` used purely as a close-signal: `unfired` while
open, `fired` once closed. -/
inductive ChanState where
  | unfired
  | fired
deriving DecidableEq, Repr

/-- The external `sarama.ConsumerGroup` client; this code only tests it for
nil and calls `Consume`/`Close` on it, so its value carries no data here. -/
abbrev ConsumerGroupClient : Type := Unit

/-- The type `context.CancelFunc`: only its presence matters to this code. -/
abbrev CancelFunc : Type := Unit

/-- The `KafkaConsumer` struct. The two counters are Go `uint64` values,
kept below `2 ^ 64` by reducing at each increment. Nilable fields are
`Option`. -/
structure KafkaConsumer where
  Configuration : BrokerConfiguration
  ConsumerGroup : Option ConsumerGroupClient
  numberOfSuccessfullyConsumedMessages : Nat
  numberOfErrorsConsumingMessages : Nat
  Verbose : Bool
  Ready : ChanState
  Cancel : Option CancelFunc
deriving DecidableEq, Repr

/-- Modulus of Go `uint64` arithmetic. -/
def uint64Mod : Nat := 2 ^ 64

/-- Getter `GetNumberOfSuccessfullyConsumedMessages`. -/
def KafkaConsumer.GetNumberOfSuccessfullyConsumedMessages (c : KafkaConsumer) : Nat :=
  c.numberOfSuccessfullyConsumedMessages

/-- Getter `GetNumberOfErrorsConsumingMessages`. -/
def KafkaConsumer.GetNumberOfErrorsConsumingMessages (c : KafkaConsumer) : Nat :=
  c.numberOfErrorsConsumingMessages

/-- Function `ProcessMessage`: logs the payload length, logs the payload content when
verbose, returns nil. Result is (returned error, emitted logs). -/
def ProcessMessage (c : KafkaConsumer) (msg : ConsumerMessage) :
    Option GoError × List LogEvent :=
  let value := msg.Value
  (none,
    [LogEvent.messageLength value.length]
      ++ (if c.Verbose then [LogEvent.messageValue value] else []))

/-- The summary record logged at the end of `HandleMessage`, built from the
consumer state after the counter update. -/
def summaryLog (c : KafkaConsumer) (m : ConsumerMessage) : LogEvent :=
  LogEvent.processingSummary c.Configuration.Topic c.Configuration.Group
    m.Offset m.Partition m.Topic
    c.numberOfSuccessfullyConsumedMessages c.numberOfErrorsConsumingMessages

/-- Function `HandleMessage`, parametrised by the `ProcessMessage` implementation so
that induced processing failures can be expressed (the method is virtual
through the `Consumer` interface). Returns the updated consumer and the
emitted logs. -/
def HandleMessageWith
    (process : KafkaConsumer → ConsumerMessage → Option GoError × List LogEvent)
    (c : KafkaConsumer) (msg : Option ConsumerMessage) :
    KafkaConsumer × List LogEvent :=
  match msg with
  | none => (c, [LogEvent.nilMessageError])
  | some m =>
    match process c m with
    | (some e, processLogs) =>
      let c2 : KafkaConsumer :=
        { c with numberOfErrorsConsumingMessages :=
            (c.numberOfErrorsConsumingMessages + 1) % uint64Mod }
      (c2, LogEvent.startedProcessing m.Offset m.Partition m.Topic m.Timestamp
            :: processLogs
            ++ [LogEvent.errorProcessingMessage e, summaryLog c2 m])
    | (none, processLogs) =>
      let c2 : KafkaConsumer :=
        { c with numberOfSuccessfullyConsumedMessages :=
            (c.numberOfSuccessfullyConsumedMessages + 1) % uint64Mod }
      (c2, LogEvent.startedProcessing m.Offset m.Partition m.Topic m.Timestamp
            :: processLogs ++ [summaryLog c2 m])

/-- Function `HandleMessage` with the baseline `ProcessMessage`. -/
def HandleMessage (c : KafkaConsumer) (msg : Option ConsumerMessage) :
    KafkaConsumer × List LogEvent :=
  HandleMessageWith ProcessMessage c msg

/-- One iteration of the `for message := range claim.Messages()` loop:
handle the message, then `session.MarkMessage(message, "")`. The state is
(consumer, session, logs so far). -/
def consumeClaimStep
    (process : KafkaConsumer → ConsumerMessage → Option GoError × List LogEvent)
    (st : KafkaConsumer × ConsumerGroupSession × List LogEvent)
    (m : Option ConsumerMessage) :
    KafkaConsumer × ConsumerGroupSession × List LogEvent :=
  ((HandleMessageWith process st.1 m).1,
    MarkMessage st.2.1 m "",
    st.2.2 ++ (HandleMessageWith process st.1 m).2)

/-- Function `ConsumeClaim`, parametrised by the `ProcessMessage` implementation:
logs the initial offset, folds the claim loop over the messages of the claim,
returns nil. -/
def ConsumeClaimWith
    (process : KafkaConsumer → ConsumerMessage → Option GoError × List LogEvent)
    (c : KafkaConsumer) (session : ConsumerGroupSession)
    (claim : ConsumerGroupClaim) :
    (KafkaConsumer × ConsumerGroupSession × List LogEvent) × Option GoError :=
  (claim.messages.foldl (consumeClaimStep process)
      (c, session, [LogEvent.startingMessagesLoop claim.initialOffset]),
    none)

/-- Function `ConsumeClaim` with the baseline `ProcessMessage`. -/
def ConsumeClaim (c : KafkaConsumer) (session : ConsumerGroupSession)
    (claim : ConsumerGroupClaim) :
    (KafkaConsumer × ConsumerGroupSession × List LogEvent) × Option GoError :=
  ConsumeClaimWith ProcessMessage c session claim

/-- Function `Setup`: logs, then `close(consumer.Ready)` — which panics in Go when the
channel is already closed — and returns nil. -/
def Setup (c : KafkaConsumer) :
    Except GoPanic (KafkaConsumer × List LogEvent × Option GoError) :=
  match c.Ready with
  | ChanState.fired => Except.error GoPanic.closeOfClosedChannel
  | ChanState.unfired =>
      Except.ok ({ c with Ready := ChanState.fired }, [LogEvent.newSessionSetup], none)

/-- Function `Cleanup`: logs and returns nil. -/
def Cleanup (c : KafkaConsumer) : KafkaConsumer × List LogEvent × Option GoError :=
  (c, [LogEvent.sessionFinished], none)

/-- Invoking a Go function value: panics when the value is nil. -/
def callCancel (f : Option CancelFunc) : Except GoPanic Unit :=
  match f with
  | none => Except.error GoPanic.nilFunctionCall
  | some _ => Except.ok ()

/-- Observable result of `Close`: whether the driver context was cancelled,
whether `ConsumerGroup.Close()` was invoked, the logs, and the returned
error. -/
structure CloseOutcome where
  contextCancelled : Bool
  groupCloseCalled : Bool
  logs : List LogEvent
  returned : Option GoError
deriving DecidableEq, Repr

/-- Function `Close`: guarded cancellation, guarded group close with the close error
logged and swallowed, returns nil. `groupCloseErr` is the result of the
external `ConsumerGroup.Close()` call. -/
def Close (c : KafkaConsumer) (groupCloseErr : Option GoError) :
    Except GoPanic CloseOutcome := do
  let cancelled ←
    if c.Cancel.isSome then do
      let _ ← callCancel c.Cancel
      pure true
    else
      pure false
  let closedAndLogs ←
    if c.ConsumerGroup.isSome then
      match groupCloseErr with
      | some e => pure (true, [LogEvent.unableToCloseConsumerGroup e])
      | none => pure (true, ([] : List LogEvent))
    else
      pure (false, [])
  return { contextCancelled := cancelled
           groupCloseCalled := closedAndLogs.1
           logs := closedAndLogs.2
           returned := none }

/-- The package-level `var DefaultSaramaConfig *sarama.Config`, never assigned
anywhere in the source, hence nil. -/
def DefaultSaramaConfig : Option SaramaConfig := none

/-- Constructor `NewWithSaramaConfig`, parametrised by the external
`sarama.NewConsumerGroup` (`mkGroup`). When the passed config is nil a
default one is built with version `V0_10_2_0`; the block that would copy
`brokerCfg.Timeout` into the Net timeouts is commented out in the source, so
the effective config never depends on `Timeout`. -/
def NewWithSaramaConfig
    (mkGroup : List String → String → SaramaConfig → Except GoError ConsumerGroupClient)
    (brokerCfg : BrokerConfiguration) (saramaConfig : Option SaramaConfig)
    (verbose : Bool) :
    Except GoError (KafkaConsumer × List LogEvent) := do
  let effectiveConfig :=
    match saramaConfig with
    | none => { saramaNewConfig with Version := V0_10_2_0 }
    | some sc => sc
  let logs := [LogEvent.configurationInfo brokerCfg.Address brokerCfg.Group]
  let consumerGroup ← mkGroup [brokerCfg.Address] brokerCfg.Group effectiveConfig
  return ({ Configuration := brokerCfg
            ConsumerGroup := some consumerGroup
            Verbose := verbose
            numberOfSuccessfullyConsumedMessages := 0
            numberOfErrorsConsumingMessages := 0
            Ready := ChanState.unfired
            Cancel := none }, logs)

/-- Constructor `NewConsumer`: `NewWithSaramaConfig` with the (nil) default config. -/
def NewConsumer
    (mkGroup : List String → String → SaramaConfig → Except GoError ConsumerGroupClient)
    (brokerCfg : BrokerConfiguration) (verbose : Bool) :
    Except GoError (KafkaConsumer × List LogEvent) :=
  NewWithSaramaConfig mkGroup brokerCfg DefaultSaramaConfig verbose

/-- Status of the `Serve` driver goroutine after one loop iteration. -/
inductive DriverStatus where
  | halted (e : GoError)
  | stopped
  | running
deriving DecidableEq, Repr

/-- One iteration of the driver loop inside `Serve`, given the error returned
by `ConsumerGroup.Consume` and whether `ctx.Err() != nil`: a non-nil error is
`log.Fatal` (process halt); otherwise cancellation stops the loop; otherwise
the `Ready` channel is replaced by a fresh one and the loop re-enters. -/
def serveLoopIter (c : KafkaConsumer) (consumeErr : Option GoError)
    (ctxCancelled : Bool) : DriverStatus × KafkaConsumer × List LogEvent :=
  match consumeErr with
  | some e => (DriverStatus.halted e, c, [LogEvent.unableToRecreateSession e])
  | none =>
    if ctxCancelled then
      (DriverStatus.stopped, c, [LogEvent.stoppingConsumer])
    else
      (DriverStatus.running, { c with Ready := ChanState.unfired },
        [LogEvent.createdNewSession])

/-- The possible outcomes of one external `Consume` call, as the spec
describes them: a normal generation end (rebalance), a return caused only by
the context being cancelled by `Close()`, or a hard transport-level failure. -/
inductive ConsumeOutcome where
  | generationEnd
  | cancelled
  | hardFailure (e : GoError)
deriving DecidableEq, Repr

/-- Modelled from the spec: the external `sarama.ConsumerGroup.Consume`
primitive is not part of this repository; per the spec a rebalance and a
cancellation-caused return both yield a nil error (cancellation being
observed through `ctx.Err()`), while a hard transport failure yields the
error. Result is (returned error, `ctx.Err() != nil`). -/
def consumeReturn : ConsumeOutcome → Option GoError × Bool
  | ConsumeOutcome.generationEnd => (none, false)
  | ConsumeOutcome.cancelled => (none, true)
  | ConsumeOutcome.hardFailure e => (some e, false)

/-- The driver loop of `Serve`, run over a finite trace of `Consume`
outcomes; it re-enters the loop exactly while iterations yield `running`. -/
def serveDriver : KafkaConsumer → List ConsumeOutcome →
    DriverStatus × KafkaConsumer × List LogEvent
  | c, [] => (DriverStatus.running, c, [])
  | c, o :: os =>
    match serveLoopIter c (consumeReturn o).1 (consumeReturn o).2 with
    | (DriverStatus.running, c2, logs) =>
      match serveDriver c2 os with
      | (st, c3, logs2) => (st, c3, logs ++ logs2)
    | (st, c2, logs) => (st, c2, logs)

/-- A broker configuration with only its `Timeout` field replaced. -/
def withTimeout (cfg : BrokerConfiguration) (t : Nat) : BrokerConfiguration :=
  { cfg with Timeout := t }

/-- A consumer with only its stored `Configuration.Timeout` replaced. -/
def consumerWithTimeout (c : KafkaConsumer) (t : Nat) : KafkaConsumer :=
  { c with Configuration := withTimeout c.Configuration t }

/-- Per-message step of the claim loop restricted to the consumer component. -/
def handleStepWith
    (process : KafkaConsumer → ConsumerMessage → Option GoError × List LogEvent)
    (cc : KafkaConsumer) (m : Option ConsumerMessage) : KafkaConsumer :=
  (HandleMessageWith process cc m).1

/-- The consumer threaded through the claim loop is exactly the fold of the
message handler over the messages of the claim. -/
theorem consumeClaim_fold_consumer
    (process : KafkaConsumer → ConsumerMessage → Option GoError × List LogEvent) :
    ∀ (msgs : List (Option ConsumerMessage)) (c : KafkaConsumer)
      (s : ConsumerGroupSession) (logs : List LogEvent),
      (msgs.foldl (consumeClaimStep process) (c, s, logs)).1
        = msgs.foldl (handleStepWith process) c := by
  intro msgs
  induction msgs with
  | nil => intro c s logs; rfl
  | cons m ms ih =>
      intro c s logs
      simp only [List.foldl_cons]
      exact ih _ _ _

/-- The session threaded through the claim loop accumulates exactly one mark
per message, in order, with empty metadata. -/
theorem consumeClaim_fold_marked
    (process : KafkaConsumer → ConsumerMessage → Option GoError × List LogEvent) :
    ∀ (msgs : List (Option ConsumerMessage)) (c : KafkaConsumer)
      (s : ConsumerGroupSession) (logs : List LogEvent),
      ((msgs.foldl (consumeClaimStep process) (c, s, logs)).2.1).marked
        = s.marked ++ msgs.map (fun m => (m, "")) := by
  intro msgs
  induction msgs with
  | nil => intro c s logs; simp
  | cons m ms ih =>
      intro c s logs
      simp only [List.foldl_cons]
      rw [ih]
      simp [consumeClaimStep, MarkMessage]

/-- Counter bookkeeping of the claim loop for a per-message induced failure
function: starting low enough that no 64-bit wrap occurs, the success counter
gains one per message whose induced error is nil and the error counter gains
one per message whose induced error is non-nil. -/
theorem handleFold_counters (fail : ConsumerMessage → Option GoError)
    (plog : KafkaConsumer → ConsumerMessage → List LogEvent) :
    ∀ (msgs : List ConsumerMessage) (c : KafkaConsumer),
      c.numberOfSuccessfullyConsumedMessages + msgs.length < uint64Mod →
      c.numberOfErrorsConsumingMessages + msgs.length < uint64Mod →
      ((msgs.foldl
          (fun cc m =>
            handleStepWith (fun c2 m2 => (fail m2, plog c2 m2)) cc (some m)) c
        ).numberOfSuccessfullyConsumedMessages
          = c.numberOfSuccessfullyConsumedMessages
              + msgs.countP (fun m => (fail m).isNone))
      ∧ ((msgs.foldl
          (fun cc m =>
            handleStepWith (fun c2 m2 => (fail m2, plog c2 m2)) cc (some m)) c
        ).numberOfErrorsConsumingMessages
          = c.numberOfErrorsConsumingMessages
              + msgs.countP (fun m => (fail m).isSome)) := by
  intro msgs
  induction msgs with
  | nil => intro c _ _; simp
  | cons m ms ih =>
      intro c h1 h2
      simp only [List.length_cons] at h1 h2
      simp only [List.foldl_cons, List.countP_cons]
      rcases hf : fail m with _ | e
      · have hc2 : handleStepWith (fun c2 m2 => (fail m2, plog c2 m2)) c (some m)
            = { c with numberOfSuccessfullyConsumedMessages :=
                  (c.numberOfSuccessfullyConsumedMessages + 1) % uint64Mod } := by
          simp [handleStepWith, HandleMessageWith, hf]
        have hmod : (c.numberOfSuccessfullyConsumedMessages + 1) % uint64Mod
            = c.numberOfSuccessfullyConsumedMessages + 1 :=
          Nat.mod_eq_of_lt (by omega)
        rw [hc2]
        have := ih { c with numberOfSuccessfullyConsumedMessages :=
            (c.numberOfSuccessfullyConsumedMessages + 1) % uint64Mod }
          (by simp only [hmod]; omega) (by simp only []; omega)
        rcases this with ⟨hs, he⟩
        rw [hs, he]
        simp [hf, hmod]
        omega
      · have hc2 : handleStepWith (fun c2 m2 => (fail m2, plog c2 m2)) c (some m)
            = { c with numberOfErrorsConsumingMessages :=
                  (c.numberOfErrorsConsumingMessages + 1) % uint64Mod } := by
          simp [handleStepWith, HandleMessageWith, hf]
        have hmod : (c.numberOfErrorsConsumingMessages + 1) % uint64Mod
            = c.numberOfErrorsConsumingMessages + 1 :=
          Nat.mod_eq_of_lt (by omega)
        rw [hc2]
        have := ih { c with numberOfErrorsConsumingMessages :=
            (c.numberOfErrorsConsumingMessages + 1) % uint64Mod }
          (by simp only []; omega) (by simp only [hmod]; omega)
        rcases this with ⟨hs, he⟩
        rw [hs, he]
        simp [hf, hmod]
        omega

/-- The induced-failure count and induced-success count of a message list
partition its length. -/
theorem countP_fail_partition (fail : ConsumerMessage → Option GoError) :
    ∀ msgs : List ConsumerMessage,
      msgs.countP (fun m => (fail m).isNone)
          + msgs.countP (fun m => (fail m).isSome)
        = msgs.length := by
  intro msgs
  induction msgs with
  | nil => simp
  | cons m ms ih =>
      simp only [List.countP_cons, List.length_cons]
      cases hf : fail m <;> simp [hf] <;> omega

/-- Claim C1: in a generation whose claim loop delivers the non-nil messages
`msgs` with `ProcessMessage` induced to fail exactly on the messages where
`fail` is non-nil (K of them), a consumer whose counters start at zero ends
the drained claim loop with success counter `N - K` and error counter `K`;
with `fail` constantly nil this gives `N` and `0`. -/
theorem claim_C1_counters
    (fail : ConsumerMessage → Option GoError)
    (plog : KafkaConsumer → ConsumerMessage → List LogEvent)
    (c : KafkaConsumer) (session : ConsumerGroupSession)
    (claim : ConsumerGroupClaim) (msgs : List ConsumerMessage)
    (hmsgs : claim.messages = msgs.map some)
    (hs0 : c.numberOfSuccessfullyConsumedMessages = 0)
    (he0 : c.numberOfErrorsConsumingMessages = 0)
    (hN : msgs.length < uint64Mod) :
    ((ConsumeClaimWith (fun c2 m2 => (fail m2, plog c2 m2)) c session claim).1.1
        ).GetNumberOfSuccessfullyConsumedMessages
      = msgs.length - msgs.countP (fun m => (fail m).isSome)
    ∧ ((ConsumeClaimWith (fun c2 m2 => (fail m2, plog c2 m2)) c session claim).1.1
        ).GetNumberOfErrorsConsumingMessages
      = msgs.countP (fun m => (fail m).isSome) := by
  have hfold := consumeClaim_fold_consumer (fun c2 m2 => (fail m2, plog c2 m2))
    claim.messages c session [LogEvent.startingMessagesLoop claim.initialOffset]
  have hcounts := handleFold_counters fail plog msgs c
    (by omega) (by omega)
  have hpart := countP_fail_partition fail msgs
  unfold ConsumeClaimWith
  rw [hfold, hmsgs, List.foldl_map]
  unfold KafkaConsumer.GetNumberOfSuccessfullyConsumedMessages
    KafkaConsumer.GetNumberOfErrorsConsumingMessages
  rcases hcounts with ⟨hs, he⟩
  rw [hs, he, hs0, he0]
  omega

/-- Message used in concrete witnesses, distinguished only by its offset. -/
def wMsg (off : Int) : ConsumerMessage :=
  { Offset := off, Partition := 0, Topic := "ccx", Timestamp := 0, Value := [] }

/-- Induced failure on the message with offset 1 only. -/
def wFail : ConsumerMessage → Option GoError :=
  fun m => if m.Offset = 1 then some "boom" else none

/-- A freshly constructed consumer used in concrete witnesses. -/
def wConsumer : KafkaConsumer :=
  { Configuration := { Address := "addr", Topic := "ccx", Group := "g1", Timeout := 0 }
    ConsumerGroup := some ()
    numberOfSuccessfullyConsumedMessages := 0
    numberOfErrorsConsumingMessages := 0
    Verbose := false
    Ready := ChanState.unfired
    Cancel := none }

/-- A session with nothing marked yet. -/
def wSession : ConsumerGroupSession := { marked := [] }

/-- A claim delivering three non-nil messages with offsets 0, 1, 2. -/
def wClaim : ConsumerGroupClaim :=
  { initialOffset := 0
    messages := [some (wMsg 0), some (wMsg 1), some (wMsg 2)] }

/-- Witness for C1: three delivered messages, failure induced on one of
them, final counters 2 and 1. -/
theorem claim_C1_counters_witness :
    ((ConsumeClaimWith (fun _ m2 => (wFail m2, [])) wConsumer wSession wClaim).1.1
        ).GetNumberOfSuccessfullyConsumedMessages = 2
    ∧ ((ConsumeClaimWith (fun _ m2 => (wFail m2, [])) wConsumer wSession wClaim).1.1
        ).GetNumberOfErrorsConsumingMessages = 1 := by
  have h := claim_C1_counters wFail (fun _ _ => []) wConsumer wSession wClaim
    [wMsg 0, wMsg 1, wMsg 2] rfl rfl rfl (by norm_num [uint64Mod])
  exact ⟨h.1.trans (by decide), h.2.trans (by decide)⟩

/-- Claim C2: the claim loop marks every yielded message against the session
exactly once, in order, with empty metadata, whatever the (possibly failing)
message processor does; the consumer itself evolves exactly by one handler
invocation per message, and `ConsumeClaim` returns nil. -/
theorem claim_C2_marking
    (process : KafkaConsumer → ConsumerMessage → Option GoError × List LogEvent)
    (c : KafkaConsumer) (session : ConsumerGroupSession)
    (claim : ConsumerGroupClaim) :
    ((ConsumeClaimWith process c session claim).1.2.1).marked
        = session.marked ++ claim.messages.map (fun m => (m, ""))
    ∧ (ConsumeClaimWith process c session claim).1.1
        = claim.messages.foldl (handleStepWith process) c
    ∧ (ConsumeClaimWith process c session claim).2 = none := by
  refine ⟨?_, ?_, rfl⟩
  · exact consumeClaim_fold_marked process claim.messages c session _
  · exact consumeClaim_fold_consumer process claim.messages c session _

/-- Claim C3: a nil message makes `HandleMessage` log an error and return
with the consumer unchanged; the message processor is never consulted and
both counters read the same as before. -/
theorem claim_C3_nilMessage
    (p q : KafkaConsumer → ConsumerMessage → Option GoError × List LogEvent)
    (c : KafkaConsumer) :
    HandleMessageWith p c none = (c, [LogEvent.nilMessageError])
    ∧ HandleMessageWith p c none = HandleMessageWith q c none
    ∧ (HandleMessageWith p c none).1.GetNumberOfSuccessfullyConsumedMessages
        = c.GetNumberOfSuccessfullyConsumedMessages
    ∧ (HandleMessageWith p c none).1.GetNumberOfErrorsConsumingMessages
        = c.GetNumberOfErrorsConsumingMessages :=
  ⟨rfl, rfl, rfl, rfl⟩

/-- Closed form of `Close`: it never panics (both nil guards work), cancels
exactly when a handle is present, closes the group exactly when a client is
present, logs a non-nil group close error, and returns nil. -/
theorem Close_eq (c : KafkaConsumer) (gErr : Option GoError) :
    Close c gErr = Except.ok
      { contextCancelled := c.Cancel.isSome
        groupCloseCalled := c.ConsumerGroup.isSome
        logs :=
          if c.ConsumerGroup.isSome then
            (match gErr with
              | some e => [LogEvent.unableToCloseConsumerGroup e]
              | none => [])
          else []
        returned := none } := by
  rcases hc : c.Cancel with _ | x <;> rcases hg : c.ConsumerGroup with _ | g <;>
    rcases gErr with _ | e <;> simp [Close, callCancel, hc, hg] <;> rfl

/-- Claim C4: `Close` on a consumer whose cancellation handle was never set
does not panic, performs the group close step whenever a group client is
present, and returns nil; moreover `Close` never panics on any consumer
state, so repeated calls are safe. -/
theorem claim_C4_closeNilCancel (c : KafkaConsumer) (groupCloseErr : Option GoError) :
    (∃ out : CloseOutcome,
        Close { c with Cancel := none } groupCloseErr = Except.ok out
        ∧ out.contextCancelled = false
        ∧ out.groupCloseCalled = c.ConsumerGroup.isSome
        ∧ out.returned = none)
    ∧ (Close c groupCloseErr).isOk = true := by
  refine ⟨⟨_, Close_eq _ _, rfl, rfl, rfl⟩, ?_⟩
  rw [Close_eq]
  rfl

/-- Claim C5: `Close` never propagates the group client close error: it
returns nil for every consumer and every close result, and when a client is
present and its close errs the error is merely logged. -/
theorem claim_C5_closeSwallows (c : KafkaConsumer) (groupCloseErr : Option GoError)
    (e : GoError) :
    (∃ out : CloseOutcome,
        Close c groupCloseErr = Except.ok out ∧ out.returned = none)
    ∧ (∃ out : CloseOutcome,
        Close { c with ConsumerGroup := some () } (some e) = Except.ok out
        ∧ out.returned = none
        ∧ LogEvent.unableToCloseConsumerGroup e ∈ out.logs) := by
  refine ⟨⟨_, Close_eq _ _, rfl⟩, ⟨_, Close_eq _ _, rfl, ?_⟩⟩
  simp

/-- Claim C6: a hard failure from the join primitive is fatal: the driver
logs it and halts, with the remainder of the trace never consumed (no
internal retry); a return caused only by cancellation carries a nil error
per the (spec-modelled) external primitive, is not treated as fatal, and
makes the loop observe cancellation and stop. -/
theorem claim_C6_hardFailureFatal (c : KafkaConsumer) (e : GoError) (b : Bool)
    (rest : List ConsumeOutcome) :
    (serveLoopIter c (some e) b).1 = DriverStatus.halted e
    ∧ LogEvent.unableToRecreateSession e ∈ (serveLoopIter c (some e) b).2.2
    ∧ serveDriver c (ConsumeOutcome.hardFailure e :: rest)
        = (DriverStatus.halted e, c, [LogEvent.unableToRecreateSession e])
    ∧ serveDriver c [ConsumeOutcome.cancelled]
        = (DriverStatus.stopped, c, [LogEvent.stoppingConsumer])
    ∧ (∀ e2 : GoError,
        (serveDriver c [ConsumeOutcome.cancelled]).1 ≠ DriverStatus.halted e2) := by
  refine ⟨rfl, by simp [serveLoopIter], rfl, rfl, ?_⟩
  intro e2
  simp [serveDriver, serveLoopIter, consumeReturn]

/-- A trace consisting solely of normal generation ends leaves the driver
running. -/
theorem serveDriver_rebalances_run (n : Nat) :
    ∀ c : KafkaConsumer,
      (serveDriver c (List.replicate n ConsumeOutcome.generationEnd)).1
        = DriverStatus.running := by
  induction n with
  | zero => intro c; rfl
  | succ k ih =>
      intro c
      rw [List.replicate_succ]
      simp only [serveDriver, serveLoopIter, consumeReturn]
      exact ih _

/-- Claim C7: when the join primitive returns without error, cancellation
terminates the loop; otherwise the ready signal is replaced with a fresh
unfired one and the loop re-enters, so a trace of rebalances alone never
terminates the driver. -/
theorem claim_C7_rebalanceResumes (c : KafkaConsumer) (n : Nat) :
    (serveLoopIter c none true).1 = DriverStatus.stopped
    ∧ (serveLoopIter c none false).1 = DriverStatus.running
    ∧ (serveLoopIter c none false).2.1 = { c with Ready := ChanState.unfired }
    ∧ ((serveLoopIter c none false).2.1).Ready = ChanState.unfired
    ∧ (serveDriver c (List.replicate n ConsumeOutcome.generationEnd)).1
        = DriverStatus.running :=
  ⟨rfl, rfl, rfl, rfl, serveDriver_rebalances_run n c⟩

/-- Every handler invocation leaves the consumer unchanged or bumps exactly
one counter by one modulo 2^64. -/
theorem handle_step_cases
    (process : KafkaConsumer → ConsumerMessage → Option GoError × List LogEvent)
    (c : KafkaConsumer) (m : Option ConsumerMessage) :
    handleStepWith process c m = c
    ∨ handleStepWith process c m
        = { c with numberOfSuccessfullyConsumedMessages :=
              (c.numberOfSuccessfullyConsumedMessages + 1) % uint64Mod }
    ∨ handleStepWith process c m
        = { c with numberOfErrorsConsumingMessages :=
              (c.numberOfErrorsConsumingMessages + 1) % uint64Mod } := by
  cases m with
  | none => exact Or.inl rfl
  | some msg =>
      rcases hp : process c msg with ⟨err, plogs⟩
      cases err with
      | none =>
          exact Or.inr (Or.inl (by simp [handleStepWith, HandleMessageWith, hp]))
      | some e =>
          exact Or.inr (Or.inr (by simp [handleStepWith, HandleMessageWith, hp]))

/-- Counters never decrease along a claim loop that cannot wrap: the fold of
the handler over any message list, for any message processor, keeps both
counters at or above their starting values as long as the number of messages
cannot reach the 64-bit wrap point. -/
theorem handleFold_counters_le
    (process : KafkaConsumer → ConsumerMessage → Option GoError × List LogEvent) :
    ∀ (msgs : List (Option ConsumerMessage)) (c : KafkaConsumer),
      c.numberOfSuccessfullyConsumedMessages + msgs.length < uint64Mod →
      c.numberOfErrorsConsumingMessages + msgs.length < uint64Mod →
      c.numberOfSuccessfullyConsumedMessages
          ≤ (msgs.foldl (handleStepWith process) c).numberOfSuccessfullyConsumedMessages
      ∧ c.numberOfErrorsConsumingMessages
          ≤ (msgs.foldl (handleStepWith process) c).numberOfErrorsConsumingMessages := by
  intro msgs
  induction msgs with
  | nil => intro c _ _; exact ⟨le_refl _, le_refl _⟩
  | cons m ms ih =>
      intro c h1 h2
      simp only [List.length_cons] at h1 h2
      simp only [List.foldl_cons]
      rcases handle_step_cases process c m with hc | hc | hc
      · rw [hc]
        exact ih c (by omega) (by omega)
      · rw [hc]
        have hmod : (c.numberOfSuccessfullyConsumedMessages + 1) % uint64Mod
            = c.numberOfSuccessfullyConsumedMessages + 1 :=
          Nat.mod_eq_of_lt (by omega)
        have hih := ih { c with numberOfSuccessfullyConsumedMessages :=
            (c.numberOfSuccessfullyConsumedMessages + 1) % uint64Mod }
          (by
            show (c.numberOfSuccessfullyConsumedMessages + 1) % uint64Mod
                + ms.length < uint64Mod
            rw [hmod]; omega)
          (by
            show c.numberOfErrorsConsumingMessages + ms.length < uint64Mod
            omega)
        refine ⟨le_trans ?_ hih.1, hih.2⟩
        show c.numberOfSuccessfullyConsumedMessages
            ≤ (c.numberOfSuccessfullyConsumedMessages + 1) % uint64Mod
        rw [hmod]; omega
      · rw [hc]
        have hmod : (c.numberOfErrorsConsumingMessages + 1) % uint64Mod
            = c.numberOfErrorsConsumingMessages + 1 :=
          Nat.mod_eq_of_lt (by omega)
        have hih := ih { c with numberOfErrorsConsumingMessages :=
            (c.numberOfErrorsConsumingMessages + 1) % uint64Mod }
          (by
            show c.numberOfSuccessfullyConsumedMessages + ms.length < uint64Mod
            omega)
          (by
            show (c.numberOfErrorsConsumingMessages + 1) % uint64Mod
                + ms.length < uint64Mod
            rw [hmod]; omega)
        refine ⟨hih.1, le_trans ?_ hih.2⟩
        show c.numberOfErrorsConsumingMessages
            ≤ (c.numberOfErrorsConsumingMessages + 1) % uint64Mod
        rw [hmod]; omega

/-- Consumer state whose success counter sits at the uint64 maximum,
reachable after 2^64 − 1 successfully handled messages. -/
def overflowConsumer : KafkaConsumer :=
  { wConsumer with numberOfSuccessfullyConsumedMessages := uint64Mod - 1 }

/-- Counterexample to C8 as stated: Go uint64 wraparound makes the next
successful `HandleMessage` drop the success counter from 2^64 − 1 to 0, a
strict decrease, so the counters are not unconditionally non-decreasing. -/
theorem claim_C8_counterexample :
    (HandleMessage overflowConsumer (some (wMsg 0))).1.numberOfSuccessfullyConsumedMessages
        = 0
    ∧ (HandleMessage overflowConsumer (some (wMsg 0))).1.numberOfSuccessfullyConsumedMessages
        < overflowConsumer.numberOfSuccessfullyConsumedMessages := by
  have h0 : (HandleMessage overflowConsumer
      (some (wMsg 0))).1.numberOfSuccessfullyConsumedMessages = 0 := by
    show (uint64Mod - 1 + 1) % uint64Mod = 0
    norm_num [uint64Mod]
  refine ⟨h0, ?_⟩
  rw [h0]
  show 0 < uint64Mod - 1
  norm_num [uint64Mod]

/-- Claim C8 (amended): the counters never decrease except by 64-bit
wraparound. Below the wrap point, a handler invocation and a whole claim
loop only raise the counters; `Setup`, `Cleanup` and the driver loop leave
them untouched; the getters read them directly. -/
theorem claim_C8_amended
    (process : KafkaConsumer → ConsumerMessage → Option GoError × List LogEvent)
    (c : KafkaConsumer) (m : Option ConsumerMessage)
    (session : ConsumerGroupSession) (claim : ConsumerGroupClaim)
    (consumeErr : Option GoError) (b : Bool)
    (h1 : c.numberOfSuccessfullyConsumedMessages + 1 < uint64Mod)
    (h2 : c.numberOfErrorsConsumingMessages + 1 < uint64Mod)
    (h3 : c.numberOfSuccessfullyConsumedMessages + claim.messages.length < uint64Mod)
    (h4 : c.numberOfErrorsConsumingMessages + claim.messages.length < uint64Mod) :
    (c.numberOfSuccessfullyConsumedMessages
        ≤ (HandleMessageWith process c m).1.numberOfSuccessfullyConsumedMessages
      ∧ c.numberOfErrorsConsumingMessages
        ≤ (HandleMessageWith process c m).1.numberOfErrorsConsumingMessages)
    ∧ (c.numberOfSuccessfullyConsumedMessages
        ≤ ((ConsumeClaimWith process c session claim).1.1
            ).numberOfSuccessfullyConsumedMessages
      ∧ c.numberOfErrorsConsumingMessages
        ≤ ((ConsumeClaimWith process c session claim).1.1
            ).numberOfErrorsConsumingMessages)
    ∧ ((Setup c).map (fun r =>
          (r.1.numberOfSuccessfullyConsumedMessages,
           r.1.numberOfErrorsConsumingMessages))
        = (Setup c).map (fun _ =>
          (c.numberOfSuccessfullyConsumedMessages,
           c.numberOfErrorsConsumingMessages)))
    ∧ ((Cleanup c).1.numberOfSuccessfullyConsumedMessages
          = c.numberOfSuccessfullyConsumedMessages
      ∧ (Cleanup c).1.numberOfErrorsConsumingMessages
          = c.numberOfErrorsConsumingMessages)
    ∧ (((serveLoopIter c consumeErr b).2.1).numberOfSuccessfullyConsumedMessages
          = c.numberOfSuccessfullyConsumedMessages
      ∧ ((serveLoopIter c consumeErr b).2.1).numberOfErrorsConsumingMessages
          = c.numberOfErrorsConsumingMessages)
    ∧ (c.GetNumberOfSuccessfullyConsumedMessages
          = c.numberOfSuccessfullyConsumedMessages
      ∧ c.GetNumberOfErrorsConsumingMessages
          = c.numberOfErrorsConsumingMessages) := by
  refine ⟨?_, ?_, ?_, ⟨rfl, rfl⟩, ?_, rfl, rfl⟩
  · rcases handle_step_cases process c m with hc | hc | hc
    · rw [show (HandleMessageWith process c m).1 = handleStepWith process c m from rfl, hc]
      exact ⟨le_refl _, le_refl _⟩
    · rw [show (HandleMessageWith process c m).1 = handleStepWith process c m from rfl, hc]
      constructor
      · show c.numberOfSuccessfullyConsumedMessages
            ≤ (c.numberOfSuccessfullyConsumedMessages + 1) % uint64Mod
        rw [Nat.mod_eq_of_lt (by omega)]
        omega
      · exact le_refl _
    · rw [show (HandleMessageWith process c m).1 = handleStepWith process c m from rfl, hc]
      constructor
      · exact le_refl _
      · show c.numberOfErrorsConsumingMessages
            ≤ (c.numberOfErrorsConsumingMessages + 1) % uint64Mod
        rw [Nat.mod_eq_of_lt (by omega)]
        omega
  · have hfold := consumeClaim_fold_consumer process claim.messages c session
      [LogEvent.startingMessagesLoop claim.initialOffset]
    have hle := handleFold_counters_le process claim.messages c h3 h4
    unfold ConsumeClaimWith
    rw [hfold]
    exact hle
  · cases hr : c.Ready <;> simp [Setup, hr] <;> rfl
  · rcases consumeErr with _ | e <;> cases b <;> simp [serveLoopIter]

/-- Witness for the amended C8 at a freshly constructed consumer: handling a
message and draining a three-message claim keep both counters at or above
their starting values. -/
theorem claim_C8_amended_witness :
    wConsumer.numberOfSuccessfullyConsumedMessages
      ≤ (HandleMessageWith ProcessMessage wConsumer
          (some (wMsg 0))).1.numberOfSuccessfullyConsumedMessages
    ∧ wConsumer.numberOfErrorsConsumingMessages
      ≤ ((ConsumeClaimWith ProcessMessage wConsumer wSession wClaim).1.1
          ).numberOfErrorsConsumingMessages := by
  have h := claim_C8_amended ProcessMessage wConsumer (some (wMsg 0)) wSession wClaim
    none false
    (by norm_num [wConsumer, uint64Mod])
    (by norm_num [wConsumer, uint64Mod])
    (by norm_num [wConsumer, wClaim, uint64Mod])
    (by norm_num [wConsumer, wClaim, uint64Mod])
  exact ⟨h.1.1, h.2.1.2⟩

/-- Projection selecting the logged message-length events. -/
def loggedLength : LogEvent → Option Nat
  | LogEvent.messageLength n => some n
  | _ => none

/-- The three-message claim of the C9 scenario: payloads "a", "", "abc"
(byte lists), on topic "ccx". -/
def wClaim9 : ConsumerGroupClaim :=
  { initialOffset := 0
    messages :=
      [ some { Offset := 0, Partition := 0, Topic := "ccx", Timestamp := 0,
               Value := [97] }
      , some { Offset := 1, Partition := 0, Topic := "ccx", Timestamp := 0,
               Value := [] }
      , some { Offset := 2, Partition := 0, Topic := "ccx", Timestamp := 0,
               Value := [97, 98, 99] } ] }

/-- Claim C9: for every non-nil message, the baseline `ProcessMessage`
returns nil, logs the payload length, and logs the payload content exactly
when verbose mode is configured; in the concrete scenario (consumer on topic
"ccx", group "g1"; payloads "a", "", "abc") the drained claim loop yields
success counter 3, error counter 0, and logged lengths 1, 0, 3 in order. -/
theorem claim_C9_processMessage (c : KafkaConsumer) (msg : ConsumerMessage) :
    (ProcessMessage c msg).1 = none
    ∧ LogEvent.messageLength msg.Value.length ∈ (ProcessMessage c msg).2
    ∧ (LogEvent.messageValue msg.Value ∈ (ProcessMessage c msg).2
        ↔ c.Verbose = true)
    ∧ ((ConsumeClaim wConsumer wSession wClaim9).1.1
        ).GetNumberOfSuccessfullyConsumedMessages = 3
    ∧ ((ConsumeClaim wConsumer wSession wClaim9).1.1
        ).GetNumberOfErrorsConsumingMessages = 0
    ∧ ((ConsumeClaim wConsumer wSession wClaim9).1.2.2).filterMap loggedLength
        = [1, 0, 3] := by
  refine ⟨rfl, by simp [ProcessMessage], ?_, by decide, by decide, by decide⟩
  cases hv : c.Verbose <;> simp [ProcessMessage, hv]

/-- Changing only the stored `Timeout` commutes with the claim loop: the
session and logs of the loop are unaffected and its consumer differs only by the
same stored `Timeout`. -/
theorem consumeClaim_fold_timeout (t : Nat) :
    ∀ (msgs : List (Option ConsumerMessage)) (c : KafkaConsumer)
      (s : ConsumerGroupSession) (logs : List LogEvent),
      msgs.foldl (consumeClaimStep ProcessMessage) (consumerWithTimeout c t, s, logs)
        = ((fun r : KafkaConsumer × ConsumerGroupSession × List LogEvent =>
              (consumerWithTimeout r.1 t, r.2.1, r.2.2))
            (msgs.foldl (consumeClaimStep ProcessMessage) (c, s, logs))) := by
  intro msgs
  induction msgs with
  | nil => intro c s logs; rfl
  | cons m ms ih =>
      intro c s logs
      simp only [List.foldl_cons]
      rw [show consumeClaimStep ProcessMessage (consumerWithTimeout c t, s, logs) m
            = (consumerWithTimeout (HandleMessage c m).1 t, MarkMessage s m "",
                logs ++ (HandleMessage c m).2) from by
        rcases m with _ | msg <;> rfl]
      rw [ih (HandleMessage c m).1 (MarkMessage s m "") (logs ++ (HandleMessage c m).2)]
      rfl

/-- The constructor is oblivious to `Timeout`: building from a configuration
that differs only in `Timeout` calls the external group constructor with the
same arguments and yields the same consumer up to the stored field. -/
theorem NewWithSaramaConfig_timeout
    (mkGroup : List String → String → SaramaConfig → Except GoError ConsumerGroupClient)
    (cfg : BrokerConfiguration) (sc : Option SaramaConfig) (verbose : Bool)
    (t : Nat) :
    NewWithSaramaConfig mkGroup (withTimeout cfg t) sc verbose
      = (NewWithSaramaConfig mkGroup cfg sc verbose).map
          (fun r => (consumerWithTimeout r.1 t, r.2)) := by
  cases sc with
  | none =>
      cases hm : mkGroup [cfg.Address] cfg.Group
          { saramaNewConfig with Version := V0_10_2_0 } with
      | error e =>
          simp [NewWithSaramaConfig, withTimeout, hm, Except.map]
      | ok g =>
          simp [NewWithSaramaConfig, withTimeout, hm, Except.map, consumerWithTimeout]
  | some s =>
      cases hm : mkGroup [cfg.Address] cfg.Group s with
      | error e =>
          simp [NewWithSaramaConfig, withTimeout, hm, Except.map]
      | ok g =>
          simp [NewWithSaramaConfig, withTimeout, hm, Except.map, consumerWithTimeout]

/-- Claim C10: the `Timeout` field of `BrokerConfiguration` is inert — the
commented-out block is the only place that would read it. Construction from
configurations differing only in `Timeout` makes the identical external
calls and returns consumers identical up to the stored field, and every
operation behaves identically on consumers differing only in the stored
`Timeout`. -/
theorem claim_C10_timeoutInert
    (mkGroup : List String → String → SaramaConfig → Except GoError ConsumerGroupClient)
    (cfg : BrokerConfiguration) (saramaConfig : Option SaramaConfig)
    (verbose : Bool) (t : Nat) (c : KafkaConsumer) (m : Option ConsumerMessage)
    (msg : ConsumerMessage) (session : ConsumerGroupSession)
    (claim : ConsumerGroupClaim) (gErr consumeErr : Option GoError) (b : Bool) :
    NewWithSaramaConfig mkGroup (withTimeout cfg t) saramaConfig verbose
      = (NewWithSaramaConfig mkGroup cfg saramaConfig verbose).map
          (fun r => (consumerWithTimeout r.1 t, r.2))
    ∧ NewConsumer mkGroup (withTimeout cfg t) verbose
      = (NewConsumer mkGroup cfg verbose).map
          (fun r => (consumerWithTimeout r.1 t, r.2))
    ∧ ProcessMessage (consumerWithTimeout c t) msg = ProcessMessage c msg
    ∧ HandleMessage (consumerWithTimeout c t) m
      = (consumerWithTimeout (HandleMessage c m).1 t, (HandleMessage c m).2)
    ∧ ConsumeClaim (consumerWithTimeout c t) session claim
      = ((consumerWithTimeout ((ConsumeClaim c session claim).1.1) t,
          (ConsumeClaim c session claim).1.2.1,
          (ConsumeClaim c session claim).1.2.2),
         (ConsumeClaim c session claim).2)
    ∧ Close (consumerWithTimeout c t) gErr = Close c gErr
    ∧ serveLoopIter (consumerWithTimeout c t) consumeErr b
      = ((serveLoopIter c consumeErr b).1,
         consumerWithTimeout ((serveLoopIter c consumeErr b).2.1) t,
         (serveLoopIter c consumeErr b).2.2)
    ∧ (consumerWithTimeout c t).GetNumberOfSuccessfullyConsumedMessages
        = c.GetNumberOfSuccessfullyConsumedMessages
    ∧ (consumerWithTimeout c t).GetNumberOfErrorsConsumingMessages
        = c.GetNumberOfErrorsConsumingMessages := by
  refine ⟨NewWithSaramaConfig_timeout mkGroup cfg saramaConfig verbose t,
    NewWithSaramaConfig_timeout mkGroup cfg DefaultSaramaConfig verbose t,
    rfl, ?_, ?_, ?_, ?_, rfl, rfl⟩
  · rcases m with _ | msg2 <;> rfl
  · unfold ConsumeClaim ConsumeClaimWith
    rw [consumeClaim_fold_timeout t claim.messages c session
      [LogEvent.startingMessagesLoop claim.initialOffset]]
  · rw [Close_eq, Close_eq]
    rfl
  · rcases consumeErr with _ | e <;> cases b <;> rfl
